import Mathlib

/-!
Shallow embedding of the opportunity-scoring engine of
`scripts/book_research_data/market_analyzer.py` (class `MarketResearcher`).

Python floats are modelled as rationals (`ℚ`); the float literals appearing
in the source (4.3, 4.0, 1.5, 1.0, 0.3, 0.4, 0.6) are all exactly
representable decimals, translated to the corresponding rationals.
Review counts and lengths are natural numbers.  Python dicts that may carry
an `error` marker are modelled as `Option` of a record with the dict's keys;
`none` is the insufficient-data marker `{'error': ...}`.  Timestamps
(`analysis_date`, `extracted_at`) and the `search_query` provenance field are
not modelled: no analyzer reads them.
-/

namespace MarketAnalyzer

abbrev Q := ℚ

/-- One marketplace listing as produced by `extract_comprehensive_book_data`:
keys `title`, `author`, `reviews_count`, `rating`, `price`, `asin`,
`publication_date`. -/
structure Book where
  title : String
  author : String
  reviews_count : Nat
  rating : Q
  price : Q
  asin : String
  publication_date : String
deriving DecidableEq, Repr

/-- Python `statistics.mean` on a rational list (exact value `sum / len`). -/
def meanQ (l : List Q) : Q := l.sum / (l.length : Q)

/-- Python `sorted` on a list of rationals (ascending). -/
def sortQ (l : List Q) : List Q := List.insertionSort (· ≤ ·) l

/-- Python `statistics.median`: middle element of the sorted list, or the
average of the two middle elements for even length. -/
def medianQ (l : List Q) : Q :=
  let s := sortQ l
  let n := s.length
  if n % 2 = 1 then s.getD (n / 2) 0
  else (s.getD (n / 2 - 1) 0 + s.getD (n / 2) 0) / 2

/-- Python `max` over a list of ints (analyzers call it on non-empty lists). -/
def maxNat : List Nat → Nat
  | [] => 0
  | [x] => x
  | x :: y :: t => Nat.max x (maxNat (y :: t))

/-- Python `min` over a list of ints (analyzers call it on non-empty lists). -/
def minNat : List Nat → Nat
  | [] => 0
  | [x] => x
  | x :: y :: t => Nat.min x (minNat (y :: t))

/-- Distinct elements of a list in first-occurrence order (Python dict /
`Counter` key order). -/
def dedupFirstAux {α} [DecidableEq α] (seen : List α) : List α → List α
  | [] => []
  | x :: xs =>
    if x ∈ seen then dedupFirstAux seen xs else x :: dedupFirstAux (x :: seen) xs

def dedupFirst {α} [DecidableEq α] (l : List α) : List α := dedupFirstAux [] l

/-- Stable insert for a count-descending sort: an element goes after every
earlier element with a strictly larger count and before ties (matching the
stability of `heapq.nlargest`, which prefers earlier elements on ties). -/
def insertByCount {α} (p : α × Nat) : List (α × Nat) → List (α × Nat)
  | [] => [p]
  | q :: rest => if q.2 > p.2 then q :: insertByCount p rest else p :: q :: rest

def sortByCountDesc {α} : List (α × Nat) → List (α × Nat)
  | [] => []
  | p :: rest => insertByCount p (sortByCountDesc rest)

/-- Python `Counter(l).most_common n`: (element, count) pairs sorted by count
descending, ties in first-occurrence order, truncated to `n`. -/
def most_common {α} [DecidableEq α] (l : List α) (n : Nat) : List (α × Nat) :=
  (sortByCountDesc ((dedupFirst l).map fun a => (a, l.count a))).take n

/-- Python `str.split()` (no argument): split on runs of whitespace,
discarding empty fragments.  `cur` accumulates the current word reversed. -/
def splitWsAux (cur : List Char) : List Char → List (List Char)
  | [] => if cur = [] then [] else [cur.reverse]
  | c :: rest =>
    if c.isWhitespace then
      if cur = [] then splitWsAux [] rest else cur.reverse :: splitWsAux [] rest
    else splitWsAux (c :: cur) rest

def splitWs (s : List Char) : List (List Char) := splitWsAux [] s

/-- Checks that `needle` is an initial segment of `hay`. -/
def beginsWith : List Char → List Char → Bool
  | [], _ => true
  | _ :: _, [] => false
  | a :: as, b :: bs => a = b && beginsWith as bs

/-- Python `needle in hay` on strings: substring containment. -/
def substrIn (needle : List Char) : List Char → Bool
  | [] => beginsWith needle []
  | c :: t => beginsWith needle (c :: t) || substrIn needle t

/-- Python `query.lower()` character data (ASCII lower-casing). -/
def lowerChars (s : String) : List Char := s.toList.map Char.toLower

/-- Python `re.findall(r'20\d{2}', text)`: non-overlapping matches scanned
left to right; after a match the scan resumes past its four characters. -/
def findYears : List Char → List (List Char)
  | c1 :: c2 :: c3 :: c4 :: rest =>
    if c1 = '2' ∧ c2 = '0' ∧ c3.isDigit ∧ c4.isDigit then
      [c1, c2, c3, c4] :: findYears rest
    else
      findYears (c2 :: c3 :: c4 :: rest)
  | _ => []

/-- Every substring of the text matching `20` followed by two digits, in
textual order, overlapping occurrences included.  Modelled from the spec's
words ("find all substrings matching `20` followed by two digits") for
comparison with the source's `re.findall` scan `findYears`. -/
def allYearMatches : List Char → List (List Char)
  | c1 :: c2 :: c3 :: c4 :: rest =>
    (if c1 = '2' ∧ c2 = '0' ∧ c3.isDigit ∧ c4.isDigit then [[c1, c2, c3, c4]] else [])
      ++ allYearMatches (c2 :: c3 :: c4 :: rest)
  | _ => []

/-- Python `re.search(r'20\d{2}', text)` followed by `int(...)`: the first
match, as a number. -/
def firstYear : List Char → Option Nat
  | c1 :: c2 :: c3 :: c4 :: rest =>
    if c1 = '2' ∧ c2 = '0' ∧ c3.isDigit ∧ c4.isDigit then
      some (2000 + 10 * (c3.toNat - 48) + (c4.toNat - 48))
    else
      firstYear (c2 :: c3 :: c4 :: rest)
  | _ => none

/-- Method `estimate_publication_date`: `re.findall(r'20\d{2}', date_text)`,
returning the last match or the string `Unknown`. -/
def estimate_publication_date (date_text : List Char) : String :=
  match (findYears date_text).getLast? with
  | some y => y.asString
  | none => "Unknown"

/-- Result dict of `analyze_competition` in the sufficient-data case. -/
structure CompetitionResult where
  total_competitors : Nat
  avg_reviews : Q
  median_reviews : Q
  max_reviews : Nat
  min_reviews : Nat
  avg_rating : Q
  author_diversity : Nat
  dominant_authors : List (String × Nat)
  competition_level : String
deriving DecidableEq, Repr

/-- Method `assess_competition_level(reviews, ratings)`. -/
def assess_competition_level (reviews ratings : List Q) : String :=
  let avg_reviews := if reviews = [] then 0 else meanQ reviews
  let avg_rating := if ratings = [] then 0 else meanQ ratings
  if avg_reviews > 500 ∧ avg_rating > (4.3 : Q) then "high"
  else if avg_reviews > 100 ∧ avg_rating > (4.0 : Q) then "medium"
  else "low"

/-- Method `analyze_competition(books)`; `none` is the
`{'error': 'No valid books for analysis'}` marker. -/
def analyze_competition (books : List Book) : Option CompetitionResult :=
  let valid_books := books.filter fun b => decide (b.reviews_count > 0)
  if valid_books = [] then none
  else
    let reviews : List Nat := valid_books.map Book.reviews_count
    let reviewsQ : List Q := reviews.map fun r => (r : Q)
    let ratings : List Q :=
      (valid_books.filter fun b => decide (b.rating > 0)).map Book.rating
    let authors : List String := valid_books.map Book.author
    some
    { total_competitors := valid_books.length
      avg_reviews := meanQ reviewsQ
      median_reviews := medianQ reviewsQ
      max_reviews := maxNat reviews
      min_reviews := minNat reviews
      avg_rating := if ratings = [] then 0 else meanQ ratings
      author_diversity := (dedupFirst authors).length
      dominant_authors := most_common authors 5
      competition_level := assess_competition_level reviewsQ ratings }

/-- Method `assess_market_activity(total_reviews, book_count)`. -/
def assess_market_activity (total_reviews book_count : Nat) : String :=
  let avg_reviews : Q := if book_count ≠ 0 then (total_reviews : Q) / (book_count : Q) else 0
  if avg_reviews > 50 then "high"
  else if avg_reviews > 15 then "medium"
  else "low"

/-- Method `estimate_search_volume(query, result_density)`:
`result_density * 100`, then `*= 2` when `len(query.split()) == 1`,
`elif` `*= 1.5` when `'how to' in query.lower()`. -/
def estimate_search_volume (query : String) (result_density : Nat) : Q :=
  let base_estimate : Q := (result_density : Q) * 100
  if (splitWs query.toList).length = 1 then base_estimate * 2
  else if substrIn "how to".toList (lowerChars query) then base_estimate * (1.5 : Q)
  else base_estimate

/-- Result dict of `analyze_demand` (never an error marker). -/
structure DemandResult where
  total_market_reviews : Nat
  avg_reviews_per_book : Q
  result_density : Nat
  active_books : Nat
  market_activity_level : String
  estimated_monthly_searches : Q
deriving DecidableEq, Repr

/-- Method `analyze_demand(books, query)`. -/
def analyze_demand (books : List Book) (query : String) : DemandResult :=
  let total_reviews := (books.map Book.reviews_count).sum
  let result_density := books.length
  let recent_books := books.filter fun b => decide (b.reviews_count > 50)
  { total_market_reviews := total_reviews
    avg_reviews_per_book :=
      if books ≠ [] then (total_reviews : Q) / (books.length : Q) else 0
    result_density := result_density
    active_books := recent_books.length
    market_activity_level := assess_market_activity total_reviews books.length
    estimated_monthly_searches := estimate_search_volume query result_density }

/-- Result dict of `analyze_quality_gaps` (never an error marker); title
words are kept as character lists. -/
structure QualityGapsResult where
  low_rated_opportunities : Nat
  missing_formats : List (List Char)
  oversaturated_formats : List (List Char)
deriving DecidableEq, Repr

/-- Method `analyze_quality_gaps(books)`. -/
def analyze_quality_gaps (books : List Book) : QualityGapsResult :=
  let low_rated := books.filter fun b =>
    decide (b.rating < (4.0 : Q)) && decide (b.reviews_count > 20)
  let title_words : List (List Char) :=
    (books.map fun b => splitWs (lowerChars b.title)).flatten
  let common_formats : List (List Char) :=
    ["guide".toList, "handbook".toList, "workbook".toList,
     "journal".toList, "planner".toList]
  let word_freq := most_common title_words 5
  { low_rated_opportunities := low_rated.length
    missing_formats := common_formats.filter fun fmt => decide (fmt ∉ title_words)
    oversaturated_formats :=
      (word_freq.filter fun wc => decide ((wc.2 : Q) > (books.length : Q) * (0.3 : Q))).map
        Prod.fst }

/-- The `prices` list of `analyze_pricing`: prices of the listings with
`price > 0`, in listing order. -/
def positivePrices (books : List Book) : List Q :=
  (books.filter fun b => decide (b.price > 0)).map Book.price

/-- One entry of the list built by `find_price_gaps`. -/
structure PriceGap where
  gap_start : Q
  gap_end : Q
  gap_size : Q
deriving DecidableEq, Repr

/-- Scan of adjacent pairs in `find_price_gaps`: a pair is reported when the
difference is strictly greater than 1.0. -/
def gapsOf : List Q → List PriceGap
  | p1 :: p2 :: rest =>
    (if p2 - p1 > 1 then [⟨p1, p2, p2 - p1⟩] else []) ++ gapsOf (p2 :: rest)
  | _ => []

/-- Method `find_price_gaps(prices)`. -/
def find_price_gaps (prices : List Q) : List PriceGap :=
  gapsOf (sortQ prices)

/-- Method `suggest_pricing_strategy(prices)`. -/
def suggest_pricing_strategy (prices : List Q) : String :=
  let median_price := medianQ prices
  if median_price < 3 then "premium_opportunity"
  else if median_price > 8 then "budget_opportunity"
  else "competitive_pricing"

/-- Result dict of `analyze_pricing` in the sufficient-data case; the four
bucket counts are the `price_range_distribution` sub-dict. -/
structure PricingResult where
  avg_price : Q
  median_price : Q
  under_3 : Nat
  three_to_6 : Nat
  six_to_10 : Nat
  over_10 : Nat
  optimal_price_gap : List PriceGap
  pricing_strategy : String
deriving DecidableEq, Repr

/-- Method `analyze_pricing(books)`; `none` is the
`{'error': 'No pricing data available'}` marker. -/
def analyze_pricing (books : List Book) : Option PricingResult :=
  let prices := positivePrices books
  if prices = [] then none
  else some
    { avg_price := meanQ prices
      median_price := medianQ prices
      under_3 := (prices.filter fun p => decide (p < 3)).length
      three_to_6 := (prices.filter fun p => decide (3 ≤ p ∧ p < 6)).length
      six_to_10 := (prices.filter fun p => decide (6 ≤ p ∧ p < 10)).length
      over_10 := (prices.filter fun p => decide (p ≥ 10)).length
      optimal_price_gap := find_price_gaps prices
      pricing_strategy := suggest_pricing_strategy prices }

/-- Result dict of `analyze_market_timing` (never an error marker). -/
structure TimingResult where
  recent_publications : Nat
  market_freshness : Q
  publishing_trend : String
  opportunity_timing : String
deriving DecidableEq, Repr

/-- The loop body of `analyze_market_timing`: a listing is recent when its
`publication_date` is non-empty, contains a `20\d\d` match, and the first
match is at least `current_year - 2` (integer comparison, written without
natural-number truncation as `current_year ≤ year + 2`). -/
def isRecent (current_year : Nat) (b : Book) : Bool :=
  b.publication_date ≠ "" &&
    match firstYear b.publication_date.toList with
    | some year => decide (current_year ≤ year + 2)
    | none => false

/-- Method `analyze_market_timing(books)`; `datetime.now().year` is passed in
as `current_year`. -/
def analyze_market_timing (current_year : Nat) (books : List Book) : TimingResult :=
  let recent_books := books.filter (isRecent current_year)
  { recent_publications := recent_books.length
    market_freshness :=
      if books ≠ [] then (recent_books.length : Q) / (books.length : Q) else 0
    publishing_trend :=
      if (recent_books.length : Q) > (books.length : Q) * (0.4 : Q) then "growing"
      else "stable"
    opportunity_timing :=
      if (recent_books.length : Q) < (books.length : Q) * (0.6 : Q) then "good"
      else "competitive" }

/-- The fields of the analysis dict that `calculate_opportunity_score`
reads.  `competition_level` is `comp.get('competition_level')` (`none` when
the competition dict is the error marker or absent); `market_activity_level`
is read with default `'low'`; `low_rated_opportunities` with default `0`;
`missing_formats` is tested for truthiness (non-emptiness);
`opportunity_timing` is `timing.get('opportunity_timing')`. -/
structure AnalysisInput where
  competition_level : Option String
  market_activity_level : Option String
  low_rated_opportunities : Nat
  missing_formats : List (List Char)
  opportunity_timing : Option String
deriving DecidableEq, Repr

/-- Competition block of `calculate_opportunity_score` (comment: 30 points):
`low` adds 25, `medium` adds 15, anything else (including the error marker)
adds 5. -/
def competitionPoints (lvl : Option String) : Nat :=
  if lvl = some "low" then 25
  else if lvl = some "medium" then 15
  else 5

/-- Demand block of `calculate_opportunity_score` (comment: 40 points):
`high` adds 35, `medium` adds 25, anything else adds 10. -/
def demandPoints (activity : String) : Nat :=
  if activity = "high" then 35
  else if activity = "medium" then 25
  else 10

/-- Quality-gap block of `calculate_opportunity_score` (comment: 20 points):
+15 when more than 3 improvable competitors, +5 when any missing formats. -/
def qualityGapPoints (low_rated : Nat) (missing : List (List Char)) : Nat :=
  (if low_rated > 3 then 15 else 0) + (if missing ≠ [] then 5 else 0)

/-- Timing block of `calculate_opportunity_score` (comment: 10 points):
`good` adds 8, `competitive` adds 4, anything else adds 0. -/
def timingPoints (timing : Option String) : Nat :=
  if timing = some "good" then 8
  else if timing = some "competitive" then 4
  else 0

/-- Method `calculate_opportunity_score(analysis)`: the four blocks are
added in fixed order and the total is clamped with `min(score, 100)`. -/
def calculate_opportunity_score (a : AnalysisInput) : Nat :=
  let score :=
    competitionPoints a.competition_level +
    demandPoints (a.market_activity_level.getD "low") +
    qualityGapPoints a.low_rated_opportunities a.missing_formats +
    timingPoints a.opportunity_timing
  min score 100

/-- The analysis dict built by `analyze_market_opportunity` in the non-empty
case (`analysis_date` is a timestamp and is not modelled). -/
structure OpportunityReport where
  query : String
  total_books_analyzed : Nat
  competition : Option CompetitionResult
  demand : DemandResult
  quality_gaps : QualityGapsResult
  pricing : Option PricingResult
  timing : TimingResult
  opportunity_score : Nat
deriving DecidableEq, Repr

/-- Method `analyze_market_opportunity(books, query)`; the empty collection
short-circuits to the empty dict `{}`, modelled as `none`. -/
def analyze_market_opportunity (current_year : Nat) (books : List Book)
    (query : String) : Option OpportunityReport :=
  if books = [] then none
  else
    let competition := analyze_competition books
    let demand := analyze_demand books query
    let quality_gaps := analyze_quality_gaps books
    let pricing := analyze_pricing books
    let timing := analyze_market_timing current_year books
    some
    { query := query
      total_books_analyzed := books.length
      competition := competition
      demand := demand
      quality_gaps := quality_gaps
      pricing := pricing
      timing := timing
      opportunity_score :=
        calculate_opportunity_score
          { competition_level := competition.map CompetitionResult.competition_level
            market_activity_level := some demand.market_activity_level
            low_rated_opportunities := quality_gaps.low_rated_opportunities
            missing_formats := quality_gaps.missing_formats
            opportunity_timing := some timing.opportunity_timing } }

/-! Concrete listings used to evaluate the embedding on the scenarios named
by the spec. -/

/-- A listing with the given reviews count, rating and price; the remaining
fields are fixed innocuous values. -/
def mkBook (reviews : Nat) (rating price : Q) : Book :=
  { title := "test title"
    author := "author a"
    reviews_count := reviews
    rating := rating
    price := price
    asin := "B000"
    publication_date := "2024" }

/-- Scenario A of the spec: ten listings with reviews
`[600, 550, 520, 510, 500, 10, 10, 10, 10, 10]`, every rating 4.4. -/
def booksA : List Book :=
  [mkBook 600 4.4 5, mkBook 550 4.4 5, mkBook 520 4.4 5, mkBook 510 4.4 5,
   mkBook 500 4.4 5, mkBook 10 4.4 5, mkBook 10 4.4 5, mkBook 10 4.4 5,
   mkBook 10 4.4 5, mkBook 10 4.4 5]

/-- Two listings priced 3.00 and 4.00: the adjacent sorted prices differ by
exactly 1.0. -/
def booksP : List Book := [mkBook 40 4.1 3, mkBook 50 4.2 4]

/-- One listing priced 5.00. -/
def books6 : List Book := [mkBook 30 4.5 5]

/-- The pricing analysis of `books6`, written out. -/
def pricing6 : PricingResult :=
  { avg_price := 5
    median_price := 5
    under_3 := 0
    three_to_6 := 1
    six_to_10 := 0
    over_10 := 0
    optimal_price_gap := []
    pricing_strategy := "competitive_pricing" }

/-- A listing carrying the unknown-rating sentinel 0.0 with 21 reviews. -/
def b0 : Book := mkBook 21 0 5

/-- A collection containing only the sentinel-rating listing `b0`. -/
def books10 : List Book := [b0]

/-! Helper lemmas. -/

theorem meanQ_singleton (x : Q) : meanQ [x] = x := by
  simp [meanQ]

/-- C1: for every non-empty collection of Listing Records, the
`opportunity_score` field of the report produced by
`analyze_market_opportunity` is an integer in `[0, 100]` (the score is a
natural number, so the lower bound is by construction). -/
theorem C1_opportunity_score_bounded (current_year : Nat) (books : List Book)
    (query : String) (h : books ≠ []) :
    ∃ r, analyze_market_opportunity current_year books query = some r ∧
      0 ≤ r.opportunity_score ∧ r.opportunity_score ≤ 100 := by
  unfold analyze_market_opportunity
  rw [if_neg h]
  exact ⟨_, rfl, Nat.zero_le _, Nat.min_le_right _ _⟩

/-- Witness for C1 at a concrete one-listing collection. -/
theorem C1_witness :
    books6 ≠ [] ∧
    ∃ r, analyze_market_opportunity 2025 books6 "habit tracker" = some r ∧
      0 ≤ r.opportunity_score ∧ r.opportunity_score ≤ 100 :=
  ⟨by with_unfolding_all decide,
   C1_opportunity_score_bounded 2025 books6 "habit tracker" (by with_unfolding_all decide)⟩

/-- C2: over any pair of a mean-reviews and a mean-rating value (realised
here as singleton samples, whose mean is the value itself), the competition
level is `high` exactly when mean reviews > 500 and mean rating > 4.3,
`medium` exactly when not high and mean reviews > 100 and mean rating > 4.0,
and `low` otherwise; the comparisons are strict, so (500.01, 4.31) is `high`
while (500, 4.3) is not. -/
theorem C2_competition_tier_partition (mr mR : Q) :
    (assess_competition_level [mr] [mR] = "high" ↔ mr > 500 ∧ mR > (4.3 : Q))
    ∧ (assess_competition_level [mr] [mR] = "medium" ↔
        ¬(mr > 500 ∧ mR > (4.3 : Q)) ∧ (mr > 100 ∧ mR > (4.0 : Q)))
    ∧ (assess_competition_level [mr] [mR] = "low" ↔
        ¬(mr > 500 ∧ mR > (4.3 : Q)) ∧ ¬(mr > 100 ∧ mR > (4.0 : Q)))
    ∧ assess_competition_level [(500.01 : Q)] [(4.31 : Q)] = "high"
    ∧ assess_competition_level [(500 : Q)] [(4.3 : Q)] ≠ "high" := by
  have key : ∀ x y : Q, assess_competition_level [x] [y] =
      if x > 500 ∧ y > (4.3 : Q) then "high"
      else if x > 100 ∧ y > (4.0 : Q) then "medium"
      else "low" := by
    intro x y
    simp [assess_competition_level, meanQ_singleton]
  simp only [key]
  refine ⟨?_, ?_, ?_, ?_, ?_⟩
  · by_cases h1 : mr > 500 ∧ mR > (4.3 : Q) <;>
      by_cases h2 : mr > 100 ∧ mR > (4.0 : Q) <;>
      simp [h1, h2]
  · by_cases h1 : mr > 500 ∧ mR > (4.3 : Q) <;>
      by_cases h2 : mr > 100 ∧ mR > (4.0 : Q) <;>
      simp [h1, h2]
  · by_cases h1 : mr > 500 ∧ mR > (4.3 : Q) <;>
      by_cases h2 : mr > 100 ∧ mR > (4.0 : Q) <;>
      simp [h1, h2]
  · norm_num
  · norm_num
    decide

/-- C3 counterexample: on the ten listings of scenario A (reviews
`[600, 550, 520, 510, 500, 10, 10, 10, 10, 10]`, mean rating 4.4) the mean
review count is 273, so the Competition Analyzer returns `medium`, not
`high` as the claim states. -/
theorem C3_counterexample :
    (analyze_competition booksA).map CompetitionResult.avg_reviews = some 273
    ∧ (analyze_competition booksA).map CompetitionResult.avg_rating = some (4.4 : Q)
    ∧ (analyze_competition booksA).map CompetitionResult.competition_level ≠ some "high" := by
  with_unfolding_all decide

/-- C3 amended: on the scenario-A listings the Competition Analyzer returns
`competition_level = medium` and the Opportunity Scorer's competition
contribution is 15. -/
theorem C3_amended_scenario :
    (analyze_competition booksA).map CompetitionResult.competition_level = some "medium"
    ∧ competitionPoints
        ((analyze_competition booksA).map CompetitionResult.competition_level) = 15 := by
  with_unfolding_all decide

/-- C4 counterexample: for the empty listing collection
`analyze_market_opportunity` short-circuits to the empty dict, so no report
carrying an opportunity score is produced. -/
theorem C4_counterexample :
    ¬ ∃ r : OpportunityReport,
        analyze_market_opportunity 2025 [] "productivity planner" = some r ∧
          0 ≤ r.opportunity_score ∧ r.opportunity_score ≤ 100 := by
  rintro ⟨r, hr, -⟩
  simp [analyze_market_opportunity] at hr

/-- C4 amended: for the empty collection the pipeline returns the empty
result (no analyzers run, no score); the analyzers themselves, applied to
the empty collection, return the insufficient-data marker (Competition,
Pricing) and `market_activity_level = low` (Demand), and the score the
Scorer computes from those analyzer outputs is 24, an integer in
`[0, 100]`. -/
theorem C4_amended (current_year : Nat) (query : String) :
    analyze_market_opportunity current_year [] query = none
    ∧ analyze_competition [] = none
    ∧ analyze_pricing [] = none
    ∧ (analyze_demand [] query).market_activity_level = "low"
    ∧ calculate_opportunity_score
        { competition_level :=
            (analyze_competition []).map CompetitionResult.competition_level
          market_activity_level := some (analyze_demand [] query).market_activity_level
          low_rated_opportunities := (analyze_quality_gaps []).low_rated_opportunities
          missing_formats := (analyze_quality_gaps []).missing_formats
          opportunity_timing :=
            some (analyze_market_timing current_year []).opportunity_timing } = 24
    ∧ 24 ≤ 100 := by
  refine ⟨rfl, rfl, rfl, rfl, ?_, by omega⟩
  with_unfolding_all rfl

/-- The adjacent-pair scan equals zipping the list with its tail and keeping
the pairs whose difference exceeds 1. -/
theorem gapsOf_eq (l : List Q) :
    gapsOf l =
      ((l.zip l.tail).filter fun ab => decide (ab.2 - ab.1 > 1)).map
        fun ab => ⟨ab.1, ab.2, ab.2 - ab.1⟩ := by
  induction l with
  | nil => rfl
  | cons a t ih =>
    cases t with
    | nil => rfl
    | cons b u =>
      by_cases h : b - a > 1 <;>
        simp only [gapsOf, List.tail_cons, List.zip_cons_cons, List.filter_cons,
          List.map_cons, decide_eq_true_eq, h, if_true, if_false, ih,
          List.singleton_append, List.nil_append]

theorem sortQ_idem (l : List Q) : sortQ (sortQ l) = sortQ l :=
  List.Sorted.insertionSort_eq (List.sorted_insertionSort _ l)

theorem sortQ_replicate (n : Nat) (p : Q) :
    sortQ (List.replicate n p) = List.replicate n p := by
  refine List.Sorted.insertionSort_eq ?_
  induction n with
  | zero => simp
  | succ m ih =>
    rw [List.replicate_succ, List.sorted_cons]
    exact ⟨fun b hb => le_of_eq (List.eq_of_mem_replicate hb).symm, ih⟩

theorem gapsOf_replicate (n : Nat) (p : Q) : gapsOf (List.replicate n p) = [] := by
  induction n with
  | zero => rfl
  | succ m ih =>
    cases m with
    | zero => rfl
    | succ k =>
      rw [List.replicate_succ] at ih ⊢
      rw [List.replicate_succ]
      have h : ¬ (p - p > 1) := by simp
      simp only [gapsOf, h, if_false, List.nil_append]
      rw [← List.replicate_succ] at ih ⊢
      rw [List.replicate_succ] at ih
      exact ih

/-- C5 counterexample: two listings priced 3.00 and 4.00 give an adjacent
sorted-price pair with difference exactly 1.0 (which is at least 1.0), yet
the Pricing Analyzer reports no gap, because the source compares with
strict `gap > 1.0`. -/
theorem C5_counterexample :
    (analyze_pricing booksP).map PricingResult.optimal_price_gap = some []
    ∧ sortQ (positivePrices booksP) = [3, 4]
    ∧ (4 : Q) - 3 ≥ 1 := by
  with_unfolding_all decide

/-- C5 amended: the Pricing Analyzer's gap field is the gap scan of the
positive prices, which reports, over the sorted price list, exactly the
adjacent pairs whose difference is strictly greater than 1.0 (not at least
1.0), each as a start/end interval with its size; identical prices yield no
gaps, and re-running the scan on the already-sorted input yields the same
result. -/
theorem C5_amended (books : List Book) (prices : List Q) (n : Nat) (p : Q) :
    (analyze_pricing books).map PricingResult.optimal_price_gap
        = (analyze_pricing books).map (fun _ => find_price_gaps (positivePrices books))
    ∧ find_price_gaps prices
        = (((sortQ prices).zip (sortQ prices).tail).filter
            fun ab => decide (ab.2 - ab.1 > 1)).map
              (fun ab => ⟨ab.1, ab.2, ab.2 - ab.1⟩)
    ∧ find_price_gaps (sortQ prices) = find_price_gaps prices
    ∧ find_price_gaps (List.replicate n p) = [] := by
  refine ⟨?_, ?_, ?_, ?_⟩
  · by_cases h : positivePrices books = [] <;> simp [analyze_pricing, h]
  · exact gapsOf_eq (sortQ prices)
  · unfold find_price_gaps
    rw [sortQ_idem]
  · unfold find_price_gaps
    rw [sortQ_replicate]
    exact gapsOf_replicate n p

/-- The four price buckets partition the price list: their filtered lengths
sum to the list's length. -/
theorem bucket_lengths_sum (l : List Q) :
    (l.filter fun p => decide (p < 3)).length
      + (l.filter fun p => decide (3 ≤ p ∧ p < 6)).length
      + (l.filter fun p => decide (6 ≤ p ∧ p < 10)).length
      + (l.filter fun p => decide (p ≥ 10)).length
      = l.length := by
  induction l with
  | nil => rfl
  | cons a t ih =>
    rcases lt_or_le a 3 with h3 | h3
    · have e1 : decide (a < 3) = true := decide_eq_true h3
      have e2 : ¬ decide (3 ≤ a ∧ a < 6) = true := by
        simp only [decide_eq_true_eq]
        rintro ⟨c, -⟩; linarith
      have e3 : ¬ decide (6 ≤ a ∧ a < 10) = true := by
        simp only [decide_eq_true_eq]
        rintro ⟨c, -⟩; linarith
      have e4 : ¬ decide (a ≥ 10) = true := by
        simp only [decide_eq_true_eq]
        intro c; linarith
      rw [@List.filter_cons_of_pos Q (fun p => decide (p < 3)) a t e1,
        @List.filter_cons_of_neg Q (fun p => decide (3 ≤ p ∧ p < 6)) a t e2,
        @List.filter_cons_of_neg Q (fun p => decide (6 ≤ p ∧ p < 10)) a t e3,
        @List.filter_cons_of_neg Q (fun p => decide (p ≥ 10)) a t e4,
        List.length_cons, List.length_cons]
      omega
    · rcases lt_or_le a 6 with h6 | h6
      · have e1 : ¬ decide (a < 3) = true := by
          simp only [decide_eq_true_eq]
          intro c; linarith
        have e2 : decide (3 ≤ a ∧ a < 6) = true := decide_eq_true ⟨h3, h6⟩
        have e3 : ¬ decide (6 ≤ a ∧ a < 10) = true := by
          simp only [decide_eq_true_eq]
          rintro ⟨c, -⟩; linarith
        have e4 : ¬ decide (a ≥ 10) = true := by
          simp only [decide_eq_true_eq]
          intro c; linarith
        rw [@List.filter_cons_of_neg Q (fun p => decide (p < 3)) a t e1,
          @List.filter_cons_of_pos Q (fun p => decide (3 ≤ p ∧ p < 6)) a t e2,
          @List.filter_cons_of_neg Q (fun p => decide (6 ≤ p ∧ p < 10)) a t e3,
          @List.filter_cons_of_neg Q (fun p => decide (p ≥ 10)) a t e4,
          List.length_cons, List.length_cons]
        omega
      · rcases lt_or_le a 10 with h10 | h10
        · have e1 : ¬ decide (a < 3) = true := by
            simp only [decide_eq_true_eq]
            intro c; linarith
          have e2 : ¬ decide (3 ≤ a ∧ a < 6) = true := by
            simp only [decide_eq_true_eq]
            rintro ⟨-, c⟩; linarith
          have e3 : decide (6 ≤ a ∧ a < 10) = true := decide_eq_true ⟨h6, h10⟩
          have e4 : ¬ decide (a ≥ 10) = true := by
            simp only [decide_eq_true_eq]
            intro c; linarith
          rw [@List.filter_cons_of_neg Q (fun p => decide (p < 3)) a t e1,
            @List.filter_cons_of_neg Q (fun p => decide (3 ≤ p ∧ p < 6)) a t e2,
            @List.filter_cons_of_pos Q (fun p => decide (6 ≤ p ∧ p < 10)) a t e3,
            @List.filter_cons_of_neg Q (fun p => decide (p ≥ 10)) a t e4,
            List.length_cons, List.length_cons]
          omega
        · have e1 : ¬ decide (a < 3) = true := by
            simp only [decide_eq_true_eq]
            intro c; linarith
          have e2 : ¬ decide (3 ≤ a ∧ a < 6) = true := by
            simp only [decide_eq_true_eq]
            rintro ⟨-, c⟩; linarith
          have e3 : ¬ decide (6 ≤ a ∧ a < 10) = true := by
            simp only [decide_eq_true_eq]
            rintro ⟨-, c⟩; linarith
          have e4 : decide (a ≥ 10) = true := decide_eq_true h10
          rw [@List.filter_cons_of_neg Q (fun p => decide (p < 3)) a t e1,
            @List.filter_cons_of_neg Q (fun p => decide (3 ≤ p ∧ p < 6)) a t e2,
            @List.filter_cons_of_neg Q (fun p => decide (6 ≤ p ∧ p < 10)) a t e3,
            @List.filter_cons_of_pos Q (fun p => decide (p ≥ 10)) a t e4,
            List.length_cons, List.length_cons]
          omega

/-- C6: when the Pricing Analyzer reaches the sufficient-data case, the four
bucket counts sum to the number of listings with a positive price. -/
theorem C6_buckets_sum (books : List Book) (r : PricingResult)
    (h : analyze_pricing books = some r) :
    r.under_3 + r.three_to_6 + r.six_to_10 + r.over_10
      = (books.filter fun b => decide (b.price > 0)).length := by
  unfold analyze_pricing at h
  by_cases hp : positivePrices books = []
  · rw [if_pos hp] at h
    exact Option.noConfusion h
  · rw [if_neg hp] at h
    have hr := Option.some.inj h
    rw [← hr]
    have hlen : (positivePrices books).length
        = (books.filter fun b => decide (b.price > 0)).length := by
      unfold positivePrices
      exact List.length_map _ _
    rw [← hlen]
    exact bucket_lengths_sum (positivePrices books)

/-- Witness for C6 at a concrete one-listing collection priced 5.00. -/
theorem C6_witness :
    analyze_pricing books6 = some pricing6 ∧
    pricing6.under_3 + pricing6.three_to_6 + pricing6.six_to_10 + pricing6.over_10
      = (books6.filter fun b => decide (b.price > 0)).length :=
  ⟨by with_unfolding_all decide,
   C6_buckets_sum books6 pricing6 (by with_unfolding_all decide)⟩

/-- C7: the estimated monthly search volume is `density * 100`, multiplied
by 2 when the query splits into exactly one word, otherwise multiplied by
1.5 when the lower-cased query contains the phrase `how to`, otherwise left
unmultiplied; consequently the result is always one of the three values, so
the two multipliers are never both applied, and the single-word test takes
precedence. -/
theorem C7_search_volume (query : String) (density : Nat) :
    (estimate_search_volume query density =
      if (splitWs query.toList).length = 1 then ((density : Q) * 100) * 2
      else if substrIn "how to".toList (lowerChars query) then
        ((density : Q) * 100) * (1.5 : Q)
      else (density : Q) * 100)
    ∧ (estimate_search_volume query density = ((density : Q) * 100) * 2
      ∨ estimate_search_volume query density = ((density : Q) * 100) * (1.5 : Q)
      ∨ estimate_search_volume query density = (density : Q) * 100) := by
  constructor
  · rfl
  · unfold estimate_search_volume
    by_cases h1 : (splitWs query.toList).length = 1
    · rw [if_pos h1]
      exact Or.inl rfl
    · rw [if_neg h1]
      by_cases h2 : substrIn "how to".toList (lowerChars query) = true
      · rw [if_pos h2]
        exact Or.inr (Or.inl rfl)
      · rw [if_neg h2]
        exact Or.inr (Or.inr rfl)

/-- C9: over every analysis input, including insufficient-data markers, the
Opportunity Scorer's output equals the plain sum of the four block
contributions and lies in `[15, 88]`; the `min(score, 100)` cap is never the
binding constraint. -/
theorem C9_score_range (a : AnalysisInput) :
    calculate_opportunity_score a
      = competitionPoints a.competition_level
        + demandPoints (a.market_activity_level.getD "low")
        + qualityGapPoints a.low_rated_opportunities a.missing_formats
        + timingPoints a.opportunity_timing
    ∧ 15 ≤ calculate_opportunity_score a
    ∧ calculate_opportunity_score a ≤ 88 := by
  have h1 : 5 ≤ competitionPoints a.competition_level
      ∧ competitionPoints a.competition_level ≤ 25 := by
    unfold competitionPoints
    split_ifs <;> omega
  have h2 : 10 ≤ demandPoints (a.market_activity_level.getD "low")
      ∧ demandPoints (a.market_activity_level.getD "low") ≤ 35 := by
    unfold demandPoints
    split_ifs <;> omega
  have h3 : qualityGapPoints a.low_rated_opportunities a.missing_formats ≤ 20 := by
    unfold qualityGapPoints
    split_ifs <;> omega
  have h4 : timingPoints a.opportunity_timing ≤ 8 := by
    unfold timingPoints
    split_ifs <;> omega
  have hsum : competitionPoints a.competition_level
      + demandPoints (a.market_activity_level.getD "low")
      + qualityGapPoints a.low_rated_opportunities a.missing_formats
      + timingPoints a.opportunity_timing ≤ 100 := by omega
  have hmin : calculate_opportunity_score a
      = competitionPoints a.competition_level
        + demandPoints (a.market_activity_level.getD "low")
        + qualityGapPoints a.low_rated_opportunities a.missing_formats
        + timingPoints a.opportunity_timing := by
    unfold calculate_opportunity_score
    exact Nat.min_eq_left hsum
  refine ⟨hmin, ?_, ?_⟩ <;> rw [hmin] <;> omega

/-- Every match produced by the findall scan is a four-character string of
the form `20` followed by two characters. -/
theorem findYears_shape (l : List Char) :
    ∀ y ∈ findYears l, ∃ a b, y = ['2', '0', a, b] := by
  induction l using findYears.induct with
  | case1 c1 c2 c3 c4 rest h ih =>
    intro y hy
    simp only [findYears] at hy
    rw [if_pos h] at hy
    rcases List.mem_cons.mp hy with hy | hy
    · exact ⟨c3, c4, by rw [hy, h.1, h.2.1]⟩
    · exact ih y hy
  | case2 c1 c2 c3 c4 rest h ih =>
    intro y hy
    simp only [findYears] at hy
    rw [if_neg h] at hy
    exact ih y hy
  | case3 t ht =>
    intro y hy
    rcases t with - | ⟨a, - | ⟨b, - | ⟨c, - | ⟨d, r⟩⟩⟩⟩
    · exact absurd hy (List.not_mem_nil y)
    · exact absurd hy (List.not_mem_nil y)
    · exact absurd hy (List.not_mem_nil y)
    · exact absurd hy (List.not_mem_nil y)
    · exact absurd rfl (ht a b c d r)

/-- The non-overlapping findall scan produces a match exactly when some
(possibly overlapping) substring matches. -/
theorem findYears_eq_nil_iff (l : List Char) :
    findYears l = [] ↔ allYearMatches l = [] := by
  induction l using findYears.induct with
  | case1 c1 c2 c3 c4 rest h ih =>
    simp only [findYears, allYearMatches]
    rw [if_pos h, if_pos h]
    simp
  | case2 c1 c2 c3 c4 rest h ih =>
    simp only [findYears, allYearMatches]
    rw [if_neg h, if_neg h]
    simpa using ih
  | case3 t ht =>
    rcases t with - | ⟨a, - | ⟨b, - | ⟨c, - | ⟨d, r⟩⟩⟩⟩
    · exact Iff.of_eq rfl
    · exact Iff.of_eq rfl
    · exact Iff.of_eq rfl
    · exact Iff.of_eq rfl
    · exact absurd rfl (ht a b c d r)

/-- C8 counterexample: in the text `202013` the matching substrings are
`2020` (at offset 0) and `2013` (at offset 2), so the last matching
substring is `2013`; but `re.findall` scans non-overlapping matches, finds
only `2020`, and `estimate_publication_date` returns `2020`. -/
theorem C8_counterexample :
    estimate_publication_date "202013".toList = "2020"
    ∧ (allYearMatches "202013".toList).getLast? = some "2013".toList
    ∧ ("2020" : String) ≠ "2013" := by
  refine ⟨by with_unfolding_all rfl, by with_unfolding_all rfl, by decide⟩

/-- C8 amended: publication-year extraction returns the last of the
non-overlapping left-to-right `20dd` matches; it returns the `Unknown`
marker exactly when the text contains no substring matching `20` followed
by two digits, and never an error. -/
theorem C8_amended (text : List Char) :
    (estimate_publication_date text = "Unknown" ↔ allYearMatches text = [])
    ∧ ∀ y, (findYears text).getLast? = some y →
        estimate_publication_date text = y.asString := by
  constructor
  · unfold estimate_publication_date
    cases hL : (findYears text).getLast? with
    | none =>
      have hnil : findYears text = [] := List.getLast?_eq_none_iff.mp hL
      simpa using (findYears_eq_nil_iff text).mp hnil
    | some y =>
      have hy : y ∈ findYears text := List.mem_of_mem_getLast? hL
      obtain ⟨a, b, rfl⟩ := findYears_shape text y hy
      constructor
      · intro hcontra
        exfalso
        have hc : List.asString ['2', '0', a, b] = "Unknown" := hcontra
        have h4 : (List.asString ['2', '0', a, b]).length = 4 := rfl
        rw [hc] at h4
        exact absurd h4 (by decide)
      · intro hnil
        exfalso
        rw [(findYears_eq_nil_iff text).mpr hnil] at hL
        exact Option.noConfusion hL
  · intro y hy
    unfold estimate_publication_date
    rw [hy]

/-- Witness for C8 amended at a concrete text with two years. -/
theorem C8_amended_witness :
    (findYears "rev 2019 pub 2021".toList).getLast? = some "2021".toList
    ∧ estimate_publication_date "rev 2019 pub 2021".toList = "2021".toList.asString :=
  ⟨by with_unfolding_all rfl,
   (C8_amended "rev 2019 pub 2021".toList).2 "2021".toList (by with_unfolding_all rfl)⟩

/-- C10: a listing whose rating carries the unknown-sentinel 0.0 and whose
review count exceeds 20 satisfies the Quality-Gap Analyzer's
`rating < 4.0 and reviews_count > 20` test, so it is counted among the
improvable (low-rated) competitors; and crossing the `> 3` count threshold
is worth exactly +15 in the Opportunity Scorer. -/
theorem C10_sentinel_rating_counted (books : List Book) (b : Book)
    (hb : b ∈ books) (h0 : b.rating = 0) (h20 : b.reviews_count > 20) :
    (analyze_quality_gaps books).low_rated_opportunities
        = (books.filter fun x =>
            decide (x.rating < (4.0 : Q)) && decide (x.reviews_count > 20)).length
    ∧ b ∈ books.filter (fun x =>
        decide (x.rating < (4.0 : Q)) && decide (x.reviews_count > 20))
    ∧ 0 < (analyze_quality_gaps books).low_rated_opportunities
    ∧ calculate_opportunity_score ⟨none, none, 4, [], none⟩
        = calculate_opportunity_score ⟨none, none, 0, [], none⟩ + 15 := by
  have hpred : (decide (b.rating < (4.0 : Q)) && decide (b.reviews_count > 20)) = true := by
    simp only [Bool.and_eq_true, decide_eq_true_eq]
    exact ⟨by rw [h0]; norm_num, h20⟩
  have hmem : b ∈ books.filter (fun x =>
      decide (x.rating < (4.0 : Q)) && decide (x.reviews_count > 20)) :=
    List.mem_filter.mpr ⟨hb, hpred⟩
  exact ⟨rfl, hmem, List.length_pos.mpr (List.ne_nil_of_mem hmem), by decide⟩

/-- Witness for C10 at the one-listing collection whose only listing has
the sentinel rating 0.0 and 21 reviews. -/
theorem C10_witness :
    (b0 ∈ books10 ∧ b0.rating = 0 ∧ b0.reviews_count > 20)
    ∧ ((analyze_quality_gaps books10).low_rated_opportunities
        = (books10.filter fun x =>
            decide (x.rating < (4.0 : Q)) && decide (x.reviews_count > 20)).length
      ∧ b0 ∈ books10.filter (fun x =>
          decide (x.rating < (4.0 : Q)) && decide (x.reviews_count > 20))
      ∧ 0 < (analyze_quality_gaps books10).low_rated_opportunities
      ∧ calculate_opportunity_score ⟨none, none, 4, [], none⟩
          = calculate_opportunity_score ⟨none, none, 0, [], none⟩ + 15) :=
  ⟨⟨by with_unfolding_all decide, by with_unfolding_all decide,
    by with_unfolding_all decide⟩,
   C10_sentinel_rating_counted books10 b0 (by with_unfolding_all decide)
     (by with_unfolding_all decide) (by with_unfolding_all decide)⟩

end MarketAnalyzer
